import Mathlib

/-!
Shallow embedding of `src/data_cleaning/DataCleaning.py`, a pandas-based
cleaning pipeline for real-estate listings.

Modelling conventions:
* A Python cell value is `Val`: `none` (Python `None`), `nan` (a float NaN,
  pandas' missing marker for numeric columns), `num q` (an int or float,
  modelled as an exact rational; the development only exercises values with a
  finite decimal expansion, which is what every cleaned value is), or
  `str s` (a Python `str`, modelled as its list of code points, matching
  Python's code-point indexing and slicing).
* Python exceptions are modelled with `Except PyErr`; a function that the
  source wraps in a `try`/`except` returning `None` is total and returns `Val`.
* `int(x)` truncates floats toward zero, raises `TypeError` on `None` and
  `ValueError` on NaN or an unparseable string; `//` is floor division and
  raises `ZeroDivisionError` on a zero divisor — all as in CPython.
* `float(s)` / `pd.to_numeric(errors="coerce")` are modelled by `parseFloat`,
  covering optionally signed finite decimal numerals with surrounding
  whitespace (exponent forms, underscores and inf/nan literals are outside the
  inputs this development exercises).
* Python `round` is round-half-to-even, modelled exactly on rationals.
-/

inductive PyErr where
  | typeError
  | valueError
  | zeroDivisionError
deriving DecidableEq, Repr

/-- A structured timestamp, the result of `datetime(year, month, day, hour, minute)`. -/
structure PyDateTime where
  year : Nat
  month : Nat
  day : Nat
  hour : Nat
  minute : Nat
deriving DecidableEq, Repr

/-- A Python cell value as stored in the dataframe. -/
inductive Val where
  | none
  | nan
  | num (q : ℚ)
  | str (s : List Char)
  | date (d : PyDateTime)
deriving DecidableEq, Repr

/-- One dataframe row, with the six raw columns of the listings table. -/
structure Row where
  area_m2 : Val
  price : Val
  price_per_sqm : Val
  upload_date : Val
  description : Val
  district_name : Val
deriving DecidableEq, Repr

/-- A row after `__new_transaction_type_col` added the derived column. -/
structure CRow where
  area_m2 : Val
  price : Val
  price_per_sqm : Val
  upload_date : Val
  description : Val
  district_name : Val
  transaction_type : Val
deriving DecidableEq, Repr

/-! ### Python string primitives over code-point lists -/

/-- `str.strip()` style trimming on one side. -/
def dropWs (l : List Char) : List Char := l.dropWhile Char.isWhitespace

/-- Python `s.strip()`: remove leading and trailing whitespace. -/
def pyTrim (l : List Char) : List Char := (dropWs ((dropWs l).reverse)).reverse

/-- Python `s.lower()` (ASCII-relevant part; the only cased characters the
pipeline meets are ASCII). -/
def pyLower (l : List Char) : List Char := l.map Char.toLower

/-- Python `s.replace(c, "")`: every replace in the source erases a single
character (`','` or `'$'`). -/
def removeChar (c : Char) (l : List Char) : List Char := l.filter (fun x => x ≠ c)

/-- `true` iff `pat` is an initial segment of `l`. -/
def listStarts : List Char → List Char → Bool
  | [], _ => true
  | _ :: _, [] => false
  | p :: ps, x :: xs => p == x && listStarts ps xs

/-- Python `pat in s` (contiguous substring test). -/
def containsSub (l pat : List Char) : Bool :=
  match l with
  | [] => pat == []
  | _ :: xs => listStarts pat l || containsSub xs pat

/-- Python `s.endswith(pat)`. -/
def pyEndsWith (pat l : List Char) : Bool := listStarts pat.reverse l.reverse

/-- Accumulator for `pyWords`. -/
def pyWordsAux : List Char → List Char → List (List Char)
  | [], acc => if acc.isEmpty then [] else [acc.reverse]
  | c :: rest, acc =>
    if c.isWhitespace then
      if acc.isEmpty then pyWordsAux rest [] else acc.reverse :: pyWordsAux rest []
    else pyWordsAux rest (c :: acc)

/-- Python `s.split()` with no argument: split on whitespace runs, dropping
empty tokens. -/
def pyWords (l : List Char) : List (List Char) := pyWordsAux l []

/-! ### Numeral printing and parsing -/

def digitChar (n : Nat) : Char := Char.ofNat (48 + n)

def digitVal (c : Char) : Nat := c.toNat - 48

def natDigitsAux : Nat → Nat → List Char
  | 0, _ => []
  | fuel + 1, n => if n < 10 then [digitChar n] else natDigitsAux fuel (n / 10) ++ [digitChar (n % 10)]

/-- Decimal digits of a natural number. -/
def natDigits (n : Nat) : List Char := natDigitsAux (n + 1) n

def natOfDigits (l : List Char) : Nat := l.foldl (fun a c => 10 * a + digitVal c) 0

/-- A nonempty all-digit string, as required inside `int()` / `float()`. -/
def parseDigits (l : List Char) : Option Nat :=
  if !l.isEmpty && l.all Char.isDigit then some (natOfDigits l) else none

/-- Python `int(s)` on a string: optional sign, then decimal digits; raises
(`none`) otherwise.  Surrounding whitespace is stripped, as CPython does. -/
def pyIntStr (l : List Char) : Option ℤ :=
  match pyTrim l with
  | [] => Option.none
  | c :: ds =>
    if c = '-' then (parseDigits ds).map (fun n => -(n : ℤ))
    else if c = '+' then (parseDigits ds).map (fun n => (n : ℤ))
    else (parseDigits (c :: ds)).map (fun n => (n : ℤ))

/-- Unsigned part of a Python float literal: `12`, `12.`, `12.5`, `.5`. -/
def parseUFloat (l : List Char) : Option ℚ :=
  let ip := l.takeWhile Char.isDigit
  match l.drop ip.length with
  | [] => if ip.isEmpty then none else some ((natOfDigits ip : ℚ))
  | '.' :: fr =>
    if fr.all Char.isDigit && !(ip.isEmpty && fr.isEmpty) then
      some ((natOfDigits ip : ℚ) + (natOfDigits fr : ℚ) / ((10 : ℚ) ^ fr.length))
    else none
  | _ => none

/-- Python `float(s)` (also the string case of `pd.to_numeric`): strip
whitespace, optional sign, finite decimal numeral; `none` models the
`ValueError` / the `coerce` fallback. -/
def parseFloat (l : List Char) : Option ℚ :=
  match pyTrim l with
  | '-' :: r => (parseUFloat r).map (fun q => -q)
  | '+' :: r => parseUFloat r
  | r => parseUFloat r

/-- Python `round`: nearest integer, ties to the even neighbour. -/
def pyRound (q : ℚ) : ℤ :=
  let f := ⌊q⌋
  let r := q - (f : ℚ)
  if r < 1 / 2 then f
  else if 1 / 2 < r then f + 1
  else if Even f then f else f + 1

/-- `int()` applied to a float: truncation toward zero. -/
def truncQ (q : ℚ) : ℤ := q.num / (q.den : ℤ)

/-- Decimal rendering of a rational whose denominator divides a power of ten
(every numeric value the pipeline produces has this form); `k` is chosen
minimal, giving the shortest expansion.  Integers render without a trailing
`.0`: Python would print `2000` for the int and `2000.0` for the float, and
every consumer in the source (`float`, `in`, `split`) treats the two
identically, so the distinction is dropped. -/
def ratDec (q : ℚ) : List Char :=
  let sign : List Char := if q < 0 then ['-'] else []
  let n := q.num.natAbs
  if q.den = 1 then sign ++ natDigits n
  else
    match (List.range 40).find? (fun k => q.den ∣ 10 ^ k) with
    | some k =>
      let m := n * (10 ^ k / q.den)
      let ds := natDigits m
      let ds := if ds.length ≤ k then List.replicate (k + 1 - ds.length) '0' ++ ds else ds
      sign ++ ds.take (ds.length - k) ++ '.' :: ds.drop (ds.length - k)
    | Option.none => sign ++ natDigits n ++ '/' :: natDigits q.den

/-- Zero-padded two-digit rendering, for `str(datetime)`. -/
def pad2 (n : Nat) : List Char := if n < 10 then '0' :: natDigits n else natDigits n

/-- Python `str(x)`: identity on strings, `"None"` for `None`, `"nan"` for a
float NaN, decimal text for numbers, the ISO-style rendering for datetimes. -/
def pyToStr : Val → List Char
  | Val.none => "None".toList
  | Val.nan => "nan".toList
  | Val.num q => ratDec q
  | Val.str s => s
  | Val.date d =>
      natDigits d.year ++ '-' :: pad2 d.month ++ '-' :: pad2 d.day ++
        ' ' :: pad2 d.hour ++ ':' :: pad2 d.minute ++ ":00".toList

/-! ### pandas primitives -/

/-- `pd.isna`: true exactly on `None` and NaN. -/
def isna : Val → Bool
  | Val.none => true
  | Val.nan => true
  | _ => false

def isNum : Val → Bool
  | Val.num _ => true
  | _ => false

/-- `pd.to_numeric(x, errors="coerce")` on one cell: numerics pass through,
numeral strings parse, everything else (including `None`) coerces to NaN. -/
def to_numeric : Val → Val
  | Val.num q => Val.num q
  | Val.str s => match parseFloat s with
    | some q => Val.num q
    | Option.none => Val.nan
  | _ => Val.nan

/-- Storing a `Series.apply` result whose cells are numbers or `None`: when at
least one cell is numeric, pandas infers a float64 column and every `None`
becomes NaN. -/
def noneToNan : Val → Val
  | Val.none => Val.nan
  | v => v

/-! ### The cleaning functions of `DataCleaning.py` -/

/-- The square-meter suffix stripped by `__clean_area_m2`. -/
def sqmSuffix : List Char := "მ²".toList

/-- `__clean_area_m2` on one cell: strip a trailing `"მ²"` from strings
(`x[:-2]`, the suffix being two code points), then `pd.to_numeric(...,
errors="coerce")`. -/
def clean_area_m2 (x : Val) : Val :=
  let x1 := match x with
    | Val.str s => if pyEndsWith sqmSuffix s then Val.str (s.take (s.length - 2)) else Val.str s
    | v => v
  to_numeric x1

/-- `parse_price` inside `__clean_and_transform_price`:
`price_str = str(price).replace(',', '').strip().lower()`; if it contains
`'$'`, return `float` of the string with `'$'` removed and stripped; otherwise
return `round(float(price_str) * rate)`; a `ValueError` from `float` yields
`None`. -/
def parse_price (rate : ℚ) (price : Val) : Val :=
  let price_str := pyLower (pyTrim (removeChar ',' (pyToStr price)))
  if price_str.any (fun c => c == '$') then
    match parseFloat (pyTrim (removeChar '$' price_str)) with
    | some q => Val.num q
    | Option.none => Val.none
  else
    match parseFloat price_str with
    | some q => Val.num (pyRound (q * rate))
    | Option.none => Val.none

/-- Python `int(x)` on a cell value. -/
def pyInt : Val → Except PyErr ℤ
  | Val.none => Except.error PyErr.typeError
  | Val.nan => Except.error PyErr.valueError
  | Val.num q => Except.ok (truncQ q)
  | Val.str s =>
    match pyIntStr s with
    | some n => Except.ok n
    | Option.none => Except.error PyErr.valueError
  | Val.date _ => Except.error PyErr.typeError

/-- The derivation branch of `clean_row`:
`try: return int(row['price']) // int(row['area_m2'])
 except (TypeError, ZeroDivisionError): return None`.
Only `TypeError` and `ZeroDivisionError` are caught; a `ValueError` (raised by
`int` on NaN or numeral-free text) escapes. -/
def tryDerive (price area : Val) : Except PyErr Val :=
  let body : Except PyErr Val := do
    let p ← pyInt price
    let a ← pyInt area
    if a = 0 then throw PyErr.zeroDivisionError
    else pure (Val.num (Int.fdiv p a))
  match body with
  | Except.error PyErr.typeError => Except.ok Val.none
  | Except.error PyErr.zeroDivisionError => Except.ok Val.none
  | r => r

/-- `clean_row` inside `__clean_price_per_sqm`: when `price_per_sqm` is
missing, derive it from the already-cleaned `price` and `area_m2`; otherwise
normalise the present value (`str(...).strip()`, keep the part before `'/'`,
strip a `'$'` marker and commas and `float`, or comma-strip, `float` and apply
the rate).  The normalisation branch has no `try`, so a failed `float`
raises. -/
def clean_row (rate : ℚ) (row : Row) : Except PyErr Val :=
  if isna row.price_per_sqm then tryDerive row.price row.area_m2
  else
    let value := pyTrim (pyToStr row.price_per_sqm)
    let value := if value.any (fun c => c == '/') then pyTrim (value.takeWhile (fun c => c ≠ '/')) else value
    if value.any (fun c => c == '$') then
      let v := pyTrim (removeChar ',' (removeChar '$' value))
      match parseFloat v with
      | some q => Except.ok (Val.num q)
      | Option.none => Except.error PyErr.valueError
    else
      let v := pyTrim (removeChar ',' value)
      match parseFloat v with
      | some q => Except.ok (Val.num (pyRound (q * rate)))
      | Option.none => Except.error PyErr.valueError

/-- The sentinel of `__fill_district_name_nulls`. -/
def sentinel : List Char := "არ არის მოწოდებული".toList

/-- `__fill_district_name_nulls` on one cell: `fillna` replaces exactly the
missing (`None`/NaN) cells with the sentinel. -/
def fill_district (x : Val) : Val := if isna x then Val.str sentinel else x

/-- The `geo_months` table of `__transform_upload_date`, verbatim. -/
def geo_months : List (List Char × Nat) :=
  [("იან".toList, 1), ("თებ".toList, 2), ("მარ".toList, 3), ("აპრ".toList, 4),
   ("მაი".toList, 5), ("ივნ".toList, 6), ("ივლ".toList, 7), ("აგვ".toList, 8),
   ("სექ".toList, 9), ("ოქტ".toList, 10), ("ნოე".toList, 11), ("დეკ".toList, 12)]

/-- `geo_months.get(key)`; all stored months are 1–12, so the source's
falsy test `if not month` coincides with the `none` test. -/
def lookupMonth (k : List Char) : Option Nat :=
  (geo_months.find? (fun p => p.1 == k)).map (fun p => p.2)

def isLeap (y : Nat) : Bool := y % 4 = 0 && (y % 100 ≠ 0 || y % 400 = 0)

def daysInMonth (y m : Nat) : Nat :=
  if m = 2 then (if isLeap y then 29 else 28)
  else if m = 4 ∨ m = 6 ∨ m = 9 ∨ m = 11 then 30 else 31

/-- `datetime(year, month, day, hour, minute)`: validates the field ranges and
raises `ValueError` (here `none`, swallowed by the source's bare `except`)
outside them.  The year is the pipeline's `datetime.now().year`, always in
`datetime`'s accepted range, so it is not re-checked. -/
def mkDatetime (y m : Nat) (d hh mm : ℤ) : Option PyDateTime :=
  if 1 ≤ m ∧ m ≤ 12 ∧ 1 ≤ d ∧ d ≤ (daysInMonth y m : ℤ) ∧
      0 ≤ hh ∧ hh < 24 ∧ 0 ≤ mm ∧ mm < 60 then
    some (PyDateTime.mk y m d.toNat hh.toNat mm.toNat)
  else Option.none

/-- `parse_date` inside `__transform_upload_date`: split on whitespace into
exactly three tokens `day, geo_month_abbr, time_str`; look up the first three
characters of the month token; build
`datetime(now.year, month, int(day), int(time_str[:2]), int(time_str[3:5]))`.
The bare `except` turns every failure (token count, lookup, `int`, `datetime`
range) into `None`. -/
def parse_date (year : Nat) (upload_str : List Char) : Option PyDateTime :=
  match pyWords upload_str with
  | [day, geo_month_abbr, time_str] =>
    match lookupMonth (geo_month_abbr.take 3) with
    | some month =>
      match pyIntStr day, pyIntStr (time_str.take 2), pyIntStr ((time_str.drop 3).take 2) with
      | some d, some hh, some mm => mkDatetime year month d hh mm
      | _, _, _ => Option.none
    | Option.none => Option.none
  | _ => Option.none

/-- The upload-date column step on one cell: `astype(str)` then `parse_date`;
a `None` result is stored as a missing cell. -/
def uploadVal (year : Nat) (v : Val) : Val :=
  match parse_date year (pyToStr v) with
  | some d => Val.date d
  | Option.none => Val.none

/-- The four markers of `extract_transaction_type`, in source order. -/
def mSale : List Char := "იყიდება".toList
def mMort : List Char := "გირავდება".toList
def mDaily : List Char := "ქირავდება დღიურად".toList
def mRent : List Char := "ქირავდება".toList
def mMonthly : List Char := "ქირავდება თვიურად".toList

/-- `extract_transaction_type` inside `__new_transaction_type_col`: non-strings
map to `None`; otherwise strip and take the first matching marker, the generic
rental marker mapping to the distinct monthly label. -/
def extract_transaction_type (desc : Val) : Val :=
  match desc with
  | Val.str s =>
    let d := pyTrim s
    if containsSub d mSale then Val.str mSale
    else if containsSub d mMort then Val.str mMort
    else if containsSub d mDaily then Val.str mDaily
    else if containsSub d mRent then Val.str mMonthly
    else Val.none
  | _ => Val.none

/-! ### The pipeline over a table (`main`), diagnostics printing omitted -/

/-- `self.apartments_df['price'].apply(parse_price)` plus the float64 column
inference: `parse_price` returns numbers or `None`, and as soon as one cell is
numeric the stored column is float64, so `None` cells become NaN. -/
def priceStep (rate : ℚ) (t : List Row) : List Row :=
  let t1 := t.map (fun r => { r with price := parse_price rate r.price })
  if t1.any (fun r => isNum r.price) then t1.map (fun r => { r with price := noneToNan r.price })
  else t1

/-- `__clean_area_m2` over the table. -/
def areaStep (t : List Row) : List Row :=
  t.map (fun r => { r with area_m2 := clean_area_m2 r.area_m2 })

/-- `df.apply(clean_row, axis=1)`: rows processed top to bottom, the first
uncaught exception aborting the whole step. -/
def applyRows (f : Row → Except PyErr Row) : List Row → Except PyErr (List Row)
  | [] => Except.ok []
  | r :: rs =>
    match f r with
    | Except.error e => Except.error e
    | Except.ok r' =>
      match applyRows f rs with
      | Except.error e => Except.error e
      | Except.ok rs' => Except.ok (r' :: rs')

/-- `__clean_price_per_sqm` over the table. -/
def ppsqmStep (rate : ℚ) (t : List Row) : Except PyErr (List Row) :=
  applyRows (fun r => (clean_row rate r).map (fun v => { r with price_per_sqm := v })) t

/-- `__transform_upload_date` over the table. -/
def dateStep (year : Nat) (t : List Row) : List Row :=
  t.map (fun r => { r with upload_date := uploadVal year r.upload_date })

/-- `__new_transaction_type_col`: the single column added by the pipeline. -/
def transStep (t : List Row) : List CRow :=
  t.map (fun r =>
    CRow.mk r.area_m2 r.price r.price_per_sqm r.upload_date r.description r.district_name
      (extract_transaction_type r.description))

/-- `__fill_district_name_nulls` over the table. -/
def districtStep (t : List CRow) : List CRow :=
  t.map (fun r => { r with district_name := fill_district r.district_name })

/-- `main`: price → area → price-per-sqm → upload-date → transaction column →
district fill, in source order (the `__get_*` diagnostics only print). -/
def run_pipeline (rate : ℚ) (year : Nat) (t : List Row) : Except PyErr (List CRow) :=
  match ppsqmStep rate (areaStep (priceStep rate t)) with
  | Except.error e => Except.error e
  | Except.ok t3 => Except.ok (districtStep (transStep (dateStep year t3)))

/-- The float64-inference flag of the price column: whether any cell parsed
to a number (the condition under which pandas stores `None` as NaN). -/
def priceFlag (rate : ℚ) (t : List Row) : Bool :=
  (t.map (fun r => { r with price := parse_price rate r.price })).any (fun r => isNum r.price)

/-- The price and area steps on one row, given the price column's
float64-inference flag `b`. -/
def stepG (b : Bool) (rate : ℚ) (r : Row) : Row :=
  { r with
    price := if b then noneToNan (parse_price rate r.price) else parse_price rate r.price,
    area_m2 := clean_area_m2 r.area_m2 }

/-- What the whole pipeline does to one row, given the float64-inference flag
`b` of the price column (a column-global bit: whether any price parsed). -/
def cleanOneRow (b : Bool) (rate : ℚ) (year : Nat) (r : Row) : Except PyErr CRow :=
  let r2 : Row := stepG b rate r
  match clean_row rate r2 with
  | Except.error e => Except.error e
  | Except.ok v =>
    Except.ok (CRow.mk r2.area_m2 r2.price v (uploadVal year r.upload_date) r.description
      (fill_district r.district_name) (extract_transaction_type r.description))

/-! ### Concrete fixtures used by the closed witnesses -/

/-- A well-formed raw listing row. -/
def sampleRow : Row :=
  Row.mk (Val.str "50მ²".toList) (Val.str "$100,000".toList) Val.nan
    (Val.str "15 მარ 14:30".toList) (Val.str "იყიდება ბინა".toList) Val.none

/-- `sampleRow` after the whole pipeline. -/
def sampleOut : CRow :=
  CRow.mk (Val.num 50) (Val.num 100000) (Val.num 2000)
    (Val.date (PyDateTime.mk 2025 3 15 14 30))
    (Val.str "იყიდება ბინა".toList) (Val.str sentinel) (Val.str mSale)

/-! ### Theorems -/

/-- C7: after `__fill_district_name_nulls`, the district column has no missing
cell — each originally missing cell holds the sentinel — and every originally
present cell is unchanged. -/
theorem fill_district_contract (col : List Val) :
    (col.map fill_district).length = col.length ∧
    ∀ i (h : i < col.length) (h2 : i < (col.map fill_district).length),
      (isna (col.get ⟨i, h⟩) = true → (col.map fill_district).get ⟨i, h2⟩ = Val.str sentinel) ∧
      (isna (col.get ⟨i, h⟩) = false → (col.map fill_district).get ⟨i, h2⟩ = col.get ⟨i, h⟩) ∧
      isna ((col.map fill_district).get ⟨i, h2⟩) = false := by
  refine ⟨col.length_map fill_district, fun i h h2 => ?_⟩
  simp only [List.get_eq_getElem, List.getElem_map]
  refine ⟨fun hm => by simp [fill_district, hm], fun hp => by simp [fill_district, hp], ?_⟩
  by_cases hm : isna col[i] = true
  · simp only [fill_district, hm, if_true]
    decide
  · simp only [Bool.not_eq_true] at hm
    simp [fill_district, hm]

/-- C7 witness: a missing cell becomes the sentinel. -/
theorem fill_district_contract_witness :
    ([Val.none].map fill_district).get ⟨0, by decide⟩ = Val.str sentinel :=
  ((fill_district_contract [Val.none]).2 0 (by decide) (by decide)).1 (by decide)

/-- C8: `__clean_area_m2` on one cell — a numeral with the `"მ²"` suffix parses
to the numeral's value, an already numeric cell or numeral text passes through
`to_numeric` to its value, and everything else coerces to the missing
marker NaN. -/
theorem clean_area_m2_contract :
    (∀ (s : List Char) (n : ℚ), pyEndsWith sqmSuffix s = true →
        parseFloat (s.take (s.length - 2)) = some n → clean_area_m2 (Val.str s) = Val.num n) ∧
    (∀ q : ℚ, clean_area_m2 (Val.num q) = Val.num q) ∧
    (∀ (s : List Char) (n : ℚ), pyEndsWith sqmSuffix s = false →
        parseFloat s = some n → clean_area_m2 (Val.str s) = Val.num n) ∧
    (∀ s : List Char, pyEndsWith sqmSuffix s = true →
        parseFloat (s.take (s.length - 2)) = Option.none → clean_area_m2 (Val.str s) = Val.nan) ∧
    (∀ s : List Char, pyEndsWith sqmSuffix s = false →
        parseFloat s = Option.none → clean_area_m2 (Val.str s) = Val.nan) ∧
    clean_area_m2 Val.none = Val.nan ∧ clean_area_m2 Val.nan = Val.nan := by
  refine ⟨fun s n h1 h2 => ?_, fun q => rfl, fun s n h1 h2 => ?_, fun s h1 h2 => ?_,
    fun s h1 h2 => ?_, rfl, rfl⟩ <;>
    simp [clean_area_m2, to_numeric, h1, h2]

/-- C8 witness: `"50მ²"` parses to 50, plain `"120"` to 120, `"negotiable"`
coerces to NaN. -/
theorem clean_area_m2_contract_witness :
    clean_area_m2 (Val.str "50მ²".toList) = Val.num 50 ∧
    clean_area_m2 (Val.str "120".toList) = Val.num 120 ∧
    clean_area_m2 (Val.str "negotiable".toList) = Val.nan :=
  ⟨clean_area_m2_contract.1 "50მ²".toList 50 (by decide) (by decide),
   clean_area_m2_contract.2.2.1 "120".toList 120 (by decide) (by decide),
   clean_area_m2_contract.2.2.2.2.1 "negotiable".toList (by decide) (by decide)⟩

/-- C4: `parse_price` — a value whose normalised form (commas removed,
stripped, lowercased) contains `'$'` parses after marker removal with no rate
applied; a markerless value that parses as `n` yields `round(n * rate)`. -/
theorem parse_price_marker_and_rate (rate : ℚ) (s : List Char) (n : ℚ) :
    ((pyLower (pyTrim (removeChar ',' s))).any (fun c => c == '$') = true →
      parseFloat (pyTrim (removeChar '$' (pyLower (pyTrim (removeChar ',' s))))) = some n →
      parse_price rate (Val.str s) = Val.num n) ∧
    ((pyLower (pyTrim (removeChar ',' s))).any (fun c => c == '$') = false →
      parseFloat (pyLower (pyTrim (removeChar ',' s))) = some n →
      parse_price rate (Val.str s) = Val.num (pyRound (n * rate))) := by
  constructor <;> intro h1 h2 <;> simp [parse_price, pyToStr, h1, h2]

/-- C4 witness: `"$1,500"` keeps its dollar amount; `" 1000 "` at rate 3 becomes
3000. -/
theorem parse_price_marker_and_rate_witness :
    parse_price 3 (Val.str "$1,500".toList) = Val.num 1500 ∧
    parse_price 3 (Val.str " 1000 ".toList) = Val.num 3000 :=
  ⟨(parse_price_marker_and_rate 3 "$1,500".toList 1500).1 (by decide) (by decide),
   ((parse_price_marker_and_rate 3 " 1000 ".toList 1000).2 (by decide) (by decide)).trans
     (by norm_num [pyRound])⟩

/-- C6: `extract_transaction_type` — non-text maps to missing, otherwise the
first matching marker in source order wins (for-sale, mortgage, daily rental,
then generic rental mapped to the monthly label), a daily-rental description
never falling through to the monthly branch, and no marker means missing. -/
theorem extract_transaction_type_first_match :
    extract_transaction_type Val.none = Val.none ∧
    extract_transaction_type Val.nan = Val.none ∧
    (∀ q : ℚ, extract_transaction_type (Val.num q) = Val.none) ∧
    (∀ s : List Char, containsSub (pyTrim s) mSale = true →
      extract_transaction_type (Val.str s) = Val.str mSale) ∧
    (∀ s : List Char, containsSub (pyTrim s) mSale = false →
      containsSub (pyTrim s) mMort = true →
      extract_transaction_type (Val.str s) = Val.str mMort) ∧
    (∀ s : List Char, containsSub (pyTrim s) mSale = false →
      containsSub (pyTrim s) mMort = false → containsSub (pyTrim s) mDaily = true →
      extract_transaction_type (Val.str s) = Val.str mDaily) ∧
    (∀ s : List Char, containsSub (pyTrim s) mSale = false →
      containsSub (pyTrim s) mMort = false → containsSub (pyTrim s) mDaily = false →
      containsSub (pyTrim s) mRent = true →
      extract_transaction_type (Val.str s) = Val.str mMonthly) ∧
    (∀ s : List Char, containsSub (pyTrim s) mSale = false →
      containsSub (pyTrim s) mMort = false → containsSub (pyTrim s) mDaily = false →
      containsSub (pyTrim s) mRent = false →
      extract_transaction_type (Val.str s) = Val.none) := by
  refine ⟨rfl, rfl, fun q => rfl,
    fun s h1 => by simp [extract_transaction_type, h1],
    fun s h1 h2 => by simp [extract_transaction_type, h1, h2],
    fun s h1 h2 h3 => by simp [extract_transaction_type, h1, h2, h3],
    fun s h1 h2 h3 h4 => by simp [extract_transaction_type, h1, h2, h3, h4],
    fun s h1 h2 h3 h4 => by simp [extract_transaction_type, h1, h2, h3, h4]⟩

/-- C6 witness: a daily-rental description classifies as daily rental, a bare
rental one as monthly, and a number yields missing. -/
theorem extract_transaction_type_first_match_witness :
    extract_transaction_type (Val.str "ბინა ქირავდება დღიურად".toList) = Val.str mDaily ∧
    extract_transaction_type (Val.str "ბინა ქირავდება".toList) = Val.str mMonthly ∧
    extract_transaction_type (Val.num 7) = Val.none :=
  ⟨extract_transaction_type_first_match.2.2.2.2.2.1 "ბინა ქირავდება დღიურად".toList
      (by decide) (by decide) (by decide),
   extract_transaction_type_first_match.2.2.2.2.2.2.1 "ბინა ქირავდება".toList
      (by decide) (by decide) (by decide) (by decide),
   extract_transaction_type_first_match.2.2.1 7⟩

/-- C1: evaluation of `clean_row`'s derivation branch.  With the
`price_per_sqm` cell missing: a NaN cleaned area (the form `pd.to_numeric(...,
errors="coerce")` gives every unparseable area) makes `int` raise a
`ValueError` that the `except (TypeError, ZeroDivisionError)` clause does not
catch, so the step aborts instead of producing the missing marker; numeric
dependencies floor-divide (100000 and 50 give 2000); a zero area and a `None`
price are caught and give the missing marker. -/
theorem clean_row_derivation_eval (rate : ℚ) :
    clean_row rate (Row.mk Val.nan (Val.num 100000) Val.nan Val.none Val.none Val.none) =
      Except.error PyErr.valueError ∧
    clean_row rate (Row.mk (Val.num 50) (Val.num 100000) Val.nan Val.none Val.none Val.none) =
      Except.ok (Val.num 2000) ∧
    clean_row rate (Row.mk (Val.num 0) (Val.num 100000) Val.nan Val.none Val.none Val.none) =
      Except.ok Val.none ∧
    clean_row rate (Row.mk (Val.num 50) Val.none Val.nan Val.none Val.none Val.none) =
      Except.ok Val.none := by
  refine ⟨?_, ?_, ?_, ?_⟩ <;> with_unfolding_all rfl

/-- C2 counterexample: the price-per-area step is not total — a present
`price_per_sqm` value `"negotiable"` makes the unguarded `float` call raise
`ValueError`, which aborts the step instead of substituting the missing
marker. -/
theorem clean_row_negotiable_raises :
    clean_row 2 (Row.mk Val.none Val.none (Val.str "negotiable".toList)
      Val.none Val.none Val.none) = Except.error PyErr.valueError := by
  with_unfolding_all rfl

/-- C2 amended: the area, price, upload-date and transaction-type per-value
transformations are total and substitute the missing marker for any value that
fails to parse — in particular a whitespace-only or `"negotiable"` price —
and the price step changes no sibling column; only the price-per-area step can
raise (uncaught `ValueError` on an unparseable present value or a NaN
dependency). -/
theorem per_value_steps_recover_parse_failures :
    (∀ rate : ℚ, parse_price rate (Val.str "   ".toList) = Val.none) ∧
    (∀ rate : ℚ, parse_price rate (Val.str "negotiable".toList) = Val.none) ∧
    (∀ (rate : ℚ) (s : List Char),
      (pyLower (pyTrim (removeChar ',' s))).any (fun c => c == '$') = false →
      parseFloat (pyLower (pyTrim (removeChar ',' s))) = Option.none →
      parse_price rate (Val.str s) = Val.none) ∧
    (∀ (rate : ℚ) (s : List Char),
      (pyLower (pyTrim (removeChar ',' s))).any (fun c => c == '$') = true →
      parseFloat (pyTrim (removeChar '$' (pyLower (pyTrim (removeChar ',' s))))) = Option.none →
      parse_price rate (Val.str s) = Val.none) ∧
    (∀ s : List Char, pyEndsWith sqmSuffix s = false → parseFloat s = Option.none →
      clean_area_m2 (Val.str s) = Val.nan) ∧
    (∀ (year : Nat) (v : Val), uploadVal year v = Val.none ∨
      ∃ d, uploadVal year v = Val.date d) ∧
    (∀ v : Val, extract_transaction_type v = Val.none ∨
      extract_transaction_type v = Val.str mSale ∨
      extract_transaction_type v = Val.str mMort ∨
      extract_transaction_type v = Val.str mDaily ∨
      extract_transaction_type v = Val.str mMonthly) ∧
    (∀ (rate : ℚ) (t : List Row),
      (priceStep rate t).map
          (fun r => (r.area_m2, r.price_per_sqm, r.upload_date, r.description, r.district_name)) =
        t.map
          (fun r => (r.area_m2, r.price_per_sqm, r.upload_date, r.description, r.district_name))) := by
  refine ⟨fun rate => by with_unfolding_all rfl, fun rate => by with_unfolding_all rfl,
    fun rate s h1 h2 => by simp [parse_price, pyToStr, h1, h2],
    fun rate s h1 h2 => by simp [parse_price, pyToStr, h1, h2],
    fun s h1 h2 => by simp [clean_area_m2, to_numeric, h1, h2],
    fun year v => ?_, fun v => ?_, fun rate t => ?_⟩
  · unfold uploadVal
    cases parse_date year (pyToStr v) with
    | none => exact Or.inl rfl
    | some d => exact Or.inr ⟨d, rfl⟩
  · cases v with
    | str s =>
      simp only [extract_transaction_type]
      split
      · exact Or.inr (Or.inl rfl)
      · split
        · exact Or.inr (Or.inr (Or.inl rfl))
        · split
          · exact Or.inr (Or.inr (Or.inr (Or.inl rfl)))
          · split
            · exact Or.inr (Or.inr (Or.inr (Or.inr rfl)))
            · exact Or.inl rfl
    | none => exact Or.inl rfl
    | nan => exact Or.inl rfl
    | num q => exact Or.inl rfl
    | date d => exact Or.inl rfl
  · cases h : (List.map (fun r => { r with price := parse_price rate r.price }) t).any
        (fun r => isNum r.price) <;>
      simp only [priceStep, h, Bool.false_eq_true, if_false, if_true, List.map_map] <;>
      rfl

/-- C2 amended witness: the general failure clauses applied at `"negotiable"`
and a one-row table. -/
theorem per_value_steps_recover_parse_failures_witness :
    parse_price 5 (Val.str "negotiable".toList) = Val.none ∧
    clean_area_m2 (Val.str "negotiable".toList) = Val.nan ∧
    (priceStep 5 [sampleRow]).map
        (fun r => (r.area_m2, r.price_per_sqm, r.upload_date, r.description, r.district_name)) =
      [sampleRow].map
        (fun r => (r.area_m2, r.price_per_sqm, r.upload_date, r.description, r.district_name)) :=
  ⟨per_value_steps_recover_parse_failures.2.2.1 5 "negotiable".toList (by decide) (by decide),
   per_value_steps_recover_parse_failures.2.2.2.2.1 "negotiable".toList (by decide) (by decide),
   per_value_steps_recover_parse_failures.2.2.2.2.2.2.2 5 [sampleRow]⟩

/-- C3 counterexample: re-running the price step on an already-cleaned numeric
price is not a no-op — at exchange rate 2 a cleaned price of 2000 becomes
`round(2000 * 2) = 4000`. -/
theorem price_step_not_idempotent :
    parse_price 2 (Val.num 2000) = Val.num 4000 ∧ Val.num 4000 ≠ Val.num 2000 :=
  ⟨by with_unfolding_all rfl, by decide⟩

/-- C3 amended: re-running the area step on numeric values is a no-op (numeric
input passes `coerce` unchanged), but the price and price-per-area steps are
not idempotent: a numeric value, whose string form carries no `'$'` marker,
is multiplied by the exchange rate again (a no-op only when the rate is 1). -/
theorem rerun_on_cleaned_values :
    (∀ q : ℚ, clean_area_m2 (Val.num q) = Val.num q) ∧
    (∀ rate : ℚ, parse_price rate (Val.num 2000) = Val.num (pyRound (2000 * rate))) ∧
    (∀ rate : ℚ, clean_row rate (Row.mk Val.none Val.none (Val.num 1000)
        Val.none Val.none Val.none) = Except.ok (Val.num (pyRound (1000 * rate)))) :=
  ⟨fun q => rfl, fun rate => by with_unfolding_all rfl, fun rate => by with_unfolding_all rfl⟩

/-- A digit character is not whitespace. -/
theorem isDigit_isWhitespace_false (c : Char) (h : c.isDigit = true) :
    c.isWhitespace = false := by
  by_contra hw
  rw [Bool.not_eq_false] at hw
  simp [Char.isWhitespace] at hw
  rcases hw with ((rfl | rfl) | rfl) | rfl <;> exact absurd h (by decide)

/-- A two-digit string is stripped to itself. -/
theorem pyTrim_two_digits (a b : Char) (ha : a.isDigit = true) (hb : b.isDigit = true) :
    pyTrim [a, b] = [a, b] := by
  have ha' := isDigit_isWhitespace_false a ha
  have hb' := isDigit_isWhitespace_false b hb
  simp [pyTrim, dropWs, List.dropWhile, ha', hb']

/-- `int` on a two-digit string gives its two-digit value. -/
theorem pyIntStr_two_digits (a b : Char) (ha : a.isDigit = true) (hb : b.isDigit = true) :
    pyIntStr [a, b] = some ((10 * digitVal a + digitVal b : ℕ) : ℤ) := by
  have hma : a ≠ '-' := by rintro rfl; exact absurd ha (by decide)
  have hpa : a ≠ '+' := by rintro rfl; exact absurd ha (by decide)
  rw [pyIntStr, pyTrim_two_digits a b ha hb]
  simp only [hma, hpa, if_false, ite_false]
  simp [parseDigits, ha, hb, natOfDigits]

/-- C5: `parse_date` — on three whitespace-separated tokens with a known month
abbreviation (first three characters) it builds the timestamp
`datetime(current year, month, int(day), int(time[0:2]), int(time[3:5]))`
(so `"15 მარ 14:30"` in year `Y` gives `(Y, 3, 15, 14, 30)`), while a token
count other than three, an unknown month abbreviation, or a failing numeric
parse yields missing. -/
theorem parse_date_contract (Y : Nat) :
    (∀ s : List Char,
      ((pyWords s).length ≠ 3 → parse_date Y s = Option.none) ∧
      (∀ d a t, pyWords s = [d, a, t] → lookupMonth (a.take 3) = Option.none →
        parse_date Y s = Option.none) ∧
      (∀ d a t, pyWords s = [d, a, t] →
        (pyIntStr d = Option.none ∨ pyIntStr (t.take 2) = Option.none ∨
          pyIntStr ((t.drop 3).take 2) = Option.none) →
        parse_date Y s = Option.none) ∧
      (∀ d a t mo dd hh mm, pyWords s = [d, a, t] → lookupMonth (a.take 3) = some mo →
        pyIntStr d = some dd → pyIntStr (t.take 2) = some hh →
        pyIntStr ((t.drop 3).take 2) = some mm →
        parse_date Y s = mkDatetime Y mo dd hh mm)) ∧
    parse_date Y ("15 მარ 14:30".toList) = some (PyDateTime.mk Y 3 15 14 30) := by
  refine ⟨fun s => ⟨?_, ?_, ?_, ?_⟩, by with_unfolding_all rfl⟩
  · intro h
    rcases hw : pyWords s with _ | ⟨x, _ | ⟨y, _ | ⟨z, _ | ⟨w, ws⟩⟩⟩⟩
    · simp [parse_date, hw]
    · simp [parse_date, hw]
    · simp [parse_date, hw]
    · exact absurd (by rw [hw]; rfl) h
    · simp [parse_date, hw]
  · intro d a t hw hlm
    simp [parse_date, hw, hlm]
  · intro d a t hw h
    simp only [parse_date, hw]
    cases hlm : lookupMonth (a.take 3) with
    | none => rfl
    | some mo =>
      rcases h with h | h | h <;> rw [h] <;>
        first
          | rfl
          | (cases pyIntStr d <;> cases pyIntStr (t.take 2) <;>
              cases pyIntStr ((t.drop 3).take 2) <;> rfl)
  · intro d a t mo dd hh mm hw hlm hd hh2 hm2
    simp [parse_date, hw, hlm, hd, hh2, hm2]

/-- C5 witness: a two-token date is missing; a well-formed April date parses
with the current year. -/
theorem parse_date_contract_witness :
    parse_date 2025 ("15 მარ".toList) = Option.none ∧
    parse_date 2025 ("20 აპრ 09:45".toList) = some (PyDateTime.mk 2025 4 20 9 45) :=
  ⟨((parse_date_contract 2025).1 "15 მარ".toList).1 (by decide),
   ((((parse_date_contract 2025).1 "20 აპრ 09:45".toList).2.2.2 "20".toList "აპრ".toList
      "09:45".toList 4 20 9 45 (by decide) (by decide) (by decide) (by decide)
      (by decide))).trans (by with_unfolding_all rfl)⟩

/-- C10: `parse_date` never inspects the separator between the hour and minute
digits — for a three-token input with a known month, a five-character time
token whose characters at positions 0–1 and 3–4 are digits parses to those
hour and minute values whatever character sits at position 2. -/
theorem parse_date_ignores_time_separator (Y : Nat) (s day abbr : List Char)
    (h1 h2 c m1 m2 : Char) (mo : Nat) (dd : ℤ)
    (hw : pyWords s = [day, abbr, [h1, h2, c, m1, m2]])
    (hmo : lookupMonth (abbr.take 3) = some mo)
    (hdd : pyIntStr day = some dd)
    (dh1 : h1.isDigit = true) (dh2 : h2.isDigit = true)
    (dm1 : m1.isDigit = true) (dm2 : m2.isDigit = true) :
    parse_date Y s =
      mkDatetime Y mo dd ((10 * digitVal h1 + digitVal h2 : ℕ) : ℤ)
        ((10 * digitVal m1 + digitVal m2 : ℕ) : ℤ) := by
  have hhour : pyIntStr [h1, h2] = some ((10 * digitVal h1 + digitVal h2 : ℕ) : ℤ) :=
    pyIntStr_two_digits h1 h2 dh1 dh2
  have hmin : pyIntStr [m1, m2] = some ((10 * digitVal m1 + digitVal m2 : ℕ) : ℤ) :=
    pyIntStr_two_digits m1 m2 dm1 dm2
  have ht : List.take 2 [h1, h2, c, m1, m2] = [h1, h2] := rfl
  have ht2 : List.take 2 (List.drop 3 [h1, h2, c, m1, m2]) = [m1, m2] := rfl
  simp only [parse_date, hw, ht, ht2, hmo, hdd, hhour, hmin]

/-- C10 witness: `"15 მარ 14x30"` parses to 14:30 despite the `'x'`
separator. -/
theorem parse_date_ignores_time_separator_witness :
    parse_date 2025 ("15 მარ 14x30".toList) = some (PyDateTime.mk 2025 3 15 14 30) :=
  (parse_date_ignores_time_separator 2025 "15 მარ 14x30".toList "15".toList "მარ".toList
    '1' '4' 'x' '3' '0' 3 15 (by decide) (by decide) (by decide) (by decide) (by decide)
    (by decide) (by decide)).trans (by with_unfolding_all rfl)

/-- A successful `df.apply(..., axis=1)` keeps the row count and applies the
row function to each row in place. -/
theorem applyRows_ok (f : Row → Except PyErr Row) :
    ∀ (l out : List Row), applyRows f l = Except.ok out →
      out.length = l.length ∧
      ∀ i (h : i < l.length) (h2 : i < out.length),
        f (l.get ⟨i, h⟩) = Except.ok (out.get ⟨i, h2⟩) := by
  intro l
  induction l with
  | nil =>
    intro out h
    simp only [applyRows, Except.ok.injEq] at h
    subst h
    exact ⟨rfl, fun i hi => absurd hi (by simp)⟩
  | cons r rs ih =>
    intro out h
    simp only [applyRows] at h
    cases hfr : f r with
    | error e => rw [hfr] at h; cases h
    | ok r' =>
      rw [hfr] at h
      cases har : applyRows f rs with
      | error e => rw [har] at h; cases h
      | ok rs' =>
        rw [har] at h
        simp only [Except.ok.injEq] at h
        subst h
        obtain ⟨hlen, hpt⟩ := ih rs' har
        refine ⟨by simp [hlen], fun i hi hi2 => ?_⟩
        cases i with
        | zero => simpa using hfr
        | succ j =>
          have hj : j < rs.length := by simpa using hi
          have hj2 : j < rs'.length := by simpa using hi2
          simpa using hpt j hj hj2


/-- C9: a successful pipeline run neither adds nor removes rows — the output
has the same length, and row `i` of the output is exactly the row-local
cleaning (`cleanOneRow`, which rewrites only the five cleaned columns and adds
the single `transaction_type` column) of row `i` of the input, for one shared
float64-inference flag of the price column. -/
theorem run_pipeline_preserves_rows (rate : ℚ) (year : Nat) (t : List Row) (out : List CRow)
    (hok : run_pipeline rate year t = Except.ok out) :
    out.length = t.length ∧
    ∃ b : Bool, ∀ i (h : i < t.length) (h2 : i < out.length),
      cleanOneRow b rate year (t.get ⟨i, h⟩) = Except.ok (out.get ⟨i, h2⟩) := by
  have hprice : priceStep rate t = t.map (fun r =>
      { r with price :=
          if priceFlag rate t then noneToNan (parse_price rate r.price)
          else parse_price rate r.price }) := by
    cases hb : priceFlag rate t
    all_goals rw [priceFlag] at hb
    all_goals simp only [priceStep, hb, if_true, if_false, Bool.false_eq_true, List.map_map]
    all_goals try rfl
  have harea : areaStep (priceStep rate t) = t.map (stepG (priceFlag rate t) rate) := by
    rw [hprice]
    unfold areaStep
    rw [List.map_map]
    rfl
  unfold run_pipeline at hok
  rw [harea] at hok
  cases hpp : ppsqmStep rate (t.map (stepG (priceFlag rate t) rate)) with
  | error e => rw [hpp] at hok; cases hok
  | ok t3 =>
    rw [hpp] at hok
    simp only [Except.ok.injEq] at hok
    subst hok
    unfold ppsqmStep at hpp
    obtain ⟨hlen3, hpt⟩ := applyRows_ok _ _ _ hpp
    simp only [List.length_map] at hlen3
    refine ⟨by simp [districtStep, transStep, dateStep, hlen3], priceFlag rate t,
      fun i h h2 => ?_⟩
    have hi3 : i < t3.length := by rw [hlen3]; exact h
    have him : i < (t.map (stepG (priceFlag rate t) rate)).length := by simpa using h
    have hF := hpt i him hi3
    simp only [List.get_eq_getElem, List.getElem_map] at hF ⊢
    simp only [districtStep, transStep, dateStep, List.map_map, List.getElem_map]
    cases hcr : clean_row rate (stepG (priceFlag rate t) rate t[i]) with
    | error e =>
      rw [hcr] at hF
      simp [Except.map] at hF
    | ok v =>
      rw [hcr] at hF
      simp only [Except.map, Except.ok.injEq] at hF
      rw [← hF]
      simp only [stepG] at hcr
      simp [cleanOneRow, stepG, hcr]

/-- C9 witness: the pipeline on a one-row table succeeds and keeps exactly one
row. -/
theorem run_pipeline_preserves_rows_witness :
    run_pipeline 2 2025 [sampleRow] = Except.ok [sampleOut] ∧
    ([sampleOut] : List CRow).length = ([sampleRow] : List Row).length :=
  ⟨by with_unfolding_all rfl,
   (run_pipeline_preserves_rows 2 2025 [sampleRow] [sampleOut] (by with_unfolding_all rfl)).1⟩

/-- C5 counterexample: `"15 მარ 99:99"` has exactly three tokens, a known
month, and all three numeric parses succeed (15, 99, 99), yet the result is
missing — `datetime` rejects hour 99, and the bare `except` converts the
`ValueError` to `None` — where the claim promises a timestamp with the parsed
hour and minute. -/
theorem parse_date_range_violation :
    pyWords ("15 მარ 99:99".toList) = ["15".toList, "მარ".toList, "99:99".toList] ∧
    lookupMonth (("მარ".toList).take 3) = some 3 ∧
    pyIntStr ("15".toList) = some 15 ∧
    pyIntStr (("99:99".toList).take 2) = some 99 ∧
    pyIntStr ((("99:99".toList).drop 3).take 2) = some 99 ∧
    parse_date 2025 ("15 მარ 99:99".toList) = Option.none := by
  refine ⟨?_, ?_, ?_, ?_, ?_, ?_⟩ <;> with_unfolding_all rfl
